import Mathlib

/-!
Shallow embedding of the booking lifecycle engine of JustServiceHub
(a Next.js home-service marketplace).  The handlers embedded here are:

* `POST /api/bookings`            (src/unnamed/part_001, lines 113-198)  → `createBooking`
* `PUT  /api/bookings/[id]`       (src/unnamed/part_001, lines 305-369)  → `transitionBooking`
* `DELETE /api/bookings/[id]`     (src/unnamed/part_001, lines 371-413)  → `cancelBooking`
* `POST /api/reviews`             (src/unnamed/part_002, lines 5-92)     → `submitReview`
* `updateServiceRating`           (src/unnamed/part_002, lines 94-112)   → `updateServiceRating`
* `DELETE /api/admin/bookings`    (src/src/app/api/admin/bookings/route.ts, lines 201-250)
                                                                         → `adminDeleteBooking`

Conventions: JavaScript numbers are modelled exactly as `ℚ` (prices,
ratings), ids as `Nat` (stand-ins for the cuid strings, only compared for
equality), timestamps as `Int`.  A JSON field that may be absent is an
`Option`.  Every operation takes the database (`Store`) and returns the
database after the call together with `Except Err β`; every `prisma`
write is reflected in the returned store, and an early `return` of an
error response leaves the store as it was at that point of the handler.
The `Err` constructors name the error taxonomy of the design document;
each corresponds to one concrete error response of the handler, noted at
its use site.
-/

/- Rational arithmetic must evaluate by reduction so that concrete runs of
the handlers can be checked by `decide`; Batteries seals these
operations, which only hides their (exact) definitions from unfolding. -/
attribute [local semireducible] Rat.mul Rat.add Rat.sub Rat.inv Rat.ofScientific

/-- A service's declared weekly availability window (`service.availability`
in the source: selected weekdays plus a start and an end time). -/
structure Availability where
  days : List Nat
  startTime : Nat
  endTime : Nat
deriving DecidableEq

/-- The fields of a `Service` row read or written by the embedded handlers. -/
structure Service where
  id : Nat
  providerId : Nat
  price : ℚ
  isActive : Bool
  availability : Availability
  rating : ℚ
  reviewCount : Nat
deriving DecidableEq

/-- `Booking.status` enum of the Prisma model. -/
inductive BookingStatus where
  | pending
  | confirmed
  | inProgress
  | completed
  | cancelled
deriving DecidableEq

/-- `Booking.paymentStatus` enum of the Prisma model. -/
inductive PaymentStatus where
  | pending
  | paid
  | refunded
deriving DecidableEq

/-- The fields of a `Booking` row read or written by the embedded handlers. -/
structure Booking where
  id : Nat
  userId : Nat
  providerId : Nat
  serviceId : Nat
  date : Int
  status : BookingStatus
  notes : Option String
  totalPrice : ℚ
  paymentStatus : PaymentStatus
  createdAt : Int
  updatedAt : Int
deriving DecidableEq

/-- The fields of a `Review` row read or written by the embedded handlers. -/
structure Review where
  id : Nat
  userId : Nat
  serviceId : Nat
  providerId : Nat
  bookingId : Nat
  rating : ℚ
  comment : Option String
deriving DecidableEq

/-- The role strings `"user" | "provider" | "admin"` of the User model. -/
inductive Role where
  | user
  | provider
  | admin
deriving DecidableEq

/-- The authenticated `(userId, role)` pair that `withAuth` /
`getUserFromRequest` hand to every handler. -/
structure Principal where
  userId : Nat
  role : Role
deriving DecidableEq

/-- The database visible to the embedded handlers. -/
structure Store where
  services : List Service
  bookings : List Booking
  reviews : List Review
deriving DecidableEq

/-- Error taxonomy of the design document; each constructor is produced by
exactly the handler response noted where it is raised. -/
inductive Err where
  | validationError
  | notFound
  | forbidden
  | invalidOperation
  | invalidTransition
  | conflict
deriving DecidableEq

/-- The statuses that occupy a slot: the `status: { in: ["pending",
"confirmed", "in_progress"] }` filter of the conflict query
(src/unnamed/part_001, lines 149-151). -/
def BookingStatus.isActiveSlot : BookingStatus → Bool
  | .pending => true
  | .confirmed => true
  | .inProgress => true
  | .completed => false
  | .cancelled => false

/-- Modelled from the spec: the Prisma schema file is not among the given
sources; per §4.2 of the design document a newly created booking's
`status` column defaults to `pending`. -/
def defaultBookingStatus : BookingStatus := .pending

/-- Modelled from the spec: the Prisma schema file is not among the given
sources; per §4.2 of the design document a newly created booking's
`paymentStatus` column defaults to `pending`. -/
def defaultPaymentStatus : PaymentStatus := .pending

/-- `prisma.service.findUnique({ where: { id } })`. -/
def findService (st : Store) (sid : Nat) : Option Service :=
  st.services.find? fun s => decide (s.id = sid)

/-- `prisma.booking.findUnique({ where: { id } })`. -/
def findBooking (st : Store) (bid : Nat) : Option Booking :=
  st.bookings.find? fun b => decide (b.id = bid)

/-- The conflict query of `POST /api/bookings` (src/unnamed/part_001,
lines 145-153): is there a booking with this `serviceId`, exactly this
`date`, and an active-slot status?  Note that the service's
`availability` window is not consulted. -/
def conflictExists (st : Store) (sid : Nat) (d : Int) : Bool :=
  st.bookings.any fun b =>
    decide (b.serviceId = sid) && decide (b.date = d) && b.status.isActiveSlot

/-- Embeds `POST /api/bookings` (src/unnamed/part_001, lines 113-198).
`userId` is the authenticated caller; `serviceId`, `date`, `notes` are the
request body fields (`none` = absent); `newId`/`now` stand for the id and
timestamp the database assigns to the inserted row. -/
def createBooking (st : Store) (userId : Nat) (serviceId : Option Nat)
    (date : Option Int) (notes : Option String) (newId : Nat) (now : Int) :
    Store × Except Err Booking :=
  match serviceId, date with
  | none, _ => (st, .error .validationError)      -- "Service ID and date are required"
  | some _, none => (st, .error .validationError) -- "Service ID and date are required"
  | some sid, some d =>
    match findService st sid with
    | none => (st, .error .notFound)              -- "Service not found or unavailable"
    | some service =>
      if service.isActive = false then
        (st, .error .notFound)                    -- "Service not found or unavailable"
      else if service.providerId = userId then
        (st, .error .invalidOperation)            -- "Cannot book your own service"
      else if conflictExists st sid d then
        (st, .error .conflict)                    -- "Service is not available at this time"
      else
        let b : Booking :=
          { id := newId, userId := userId, providerId := service.providerId,
            serviceId := sid, date := d, status := defaultBookingStatus,
            notes := notes, totalPrice := service.price,
            paymentStatus := defaultPaymentStatus, createdAt := now, updatedAt := now }
        ({ st with bookings := st.bookings ++ [b] }, .ok b)

/-- The `allowedStatuses` table of `PUT /api/bookings/[id]`
(src/unnamed/part_001, lines 332-336), keyed by the caller's role. -/
def allowedStatuses : Role → List BookingStatus
  | .user => [.cancelled]
  | .provider => [.confirmed, .inProgress, .completed, .cancelled]
  | .admin => [.pending, .confirmed, .inProgress, .completed, .cancelled]

/-- Embeds `PUT /api/bookings/[id]` (src/unnamed/part_001, lines 305-369).
`status`/`notes` are the request body fields; `notes` is doubly optional
because the handler distinguishes `undefined` from an explicit `null`.
`now` stands for the `@updatedAt` timestamp the database writes on a
successful update (the Prisma schema is not among the given sources;
§4.3 of the design document records the side effect on `updatedAt`). -/
def transitionBooking (st : Store) (actor : Principal) (bookingId : Nat)
    (status : Option BookingStatus) (notes : Option (Option String)) (now : Int) :
    Store × Except Err Booking :=
  match findBooking st bookingId with
  | none => (st, .error .notFound)                -- "Booking not found"
  | some b =>
    if actor.role = .user ∧ b.userId ≠ actor.userId then
      (st, .error .forbidden)                     -- "Unauthorized"
    else if actor.role = .provider ∧ b.providerId ≠ actor.userId then
      (st, .error .forbidden)                     -- "Unauthorized"
    else if status.any (fun t => !((allowedStatuses actor.role).contains t)) then
      (st, .error .invalidTransition)             -- "Invalid status transition"
    else
      let b' : Booking :=
        { b with status := status.getD b.status,
                 notes := notes.getD b.notes,
                 updatedAt := now }
      ({ st with bookings := st.bookings.map fun x => if x.id = bookingId then b' else x },
       .ok b')

/-- Embeds `DELETE /api/bookings/[id]` (src/unnamed/part_001, lines
371-413).  Despite the HTTP verb this handler only cancels: it sets
`status` to `cancelled` and never removes the row. -/
def cancelBooking (st : Store) (actor : Principal) (bookingId : Nat) :
    Store × Except Err Unit :=
  match findBooking st bookingId with
  | none => (st, .error .notFound)                -- "Booking not found"
  | some b =>
    if b.status = .completed ∨ b.status = .cancelled then
      (st, .error .invalidOperation)  -- "Cannot cancel completed or already cancelled booking"
    else if b.userId ≠ actor.userId ∧ b.providerId ≠ actor.userId ∧ actor.role ≠ .admin then
      (st, .error .forbidden)                     -- "Unauthorized"
    else
      ({ st with bookings := st.bookings.map fun x =>
          if x.id = bookingId then { x with status := .cancelled } else x },
       .ok ())

/-- `Math.round(avgRating * 10) / 10` of `updateServiceRating`
(src/unnamed/part_002, line 107): round to one decimal place, halves
rounding up exactly as `Math.round`.  Written with `Rat.floor` and
`mkRat` so that it evaluates by kernel reduction; `round1_eq_round`
shows it agrees with Mathlib's `round`. -/
def round1 (q : ℚ) : ℚ := mkRat (q * 10 + mkRat 1 2).floor 10

/-- The ratings of all reviews linked to `serviceId`: the
`prisma.review.findMany({ where: { serviceId }, select: { rating } })`
query of `updateServiceRating` (src/unnamed/part_002, lines 95-98). -/
def serviceRatings (st : Store) (sid : Nat) : List ℚ :=
  (st.reviews.filter fun r => decide (r.serviceId = sid)).map fun r => r.rating

/-- Embeds `updateServiceRating` (src/unnamed/part_002, lines 94-112):
when the service has at least one review, recompute the mean of all of
its reviews' ratings, round to one decimal, and write `rating` and
`reviewCount`; otherwise do nothing. -/
def updateServiceRating (st : Store) (sid : Nat) : Store :=
  let ratings := serviceRatings st sid
  if 0 < ratings.length then
    { st with services := st.services.map fun s =>
        if s.id = sid then
          { s with rating := round1 (ratings.sum / (ratings.length : ℚ)),
                   reviewCount := ratings.length }
        else s }
  else st

/-- Embeds `POST /api/reviews` (src/unnamed/part_002, lines 5-92).
`bookingId`/`rating`/`comment` are the request body fields; the
`!rating` falsiness test of line 10 also rejects an explicit rating of
`0`, hence the extra `r = 0` case.  `newId` stands for the id the
database assigns to the inserted review. -/
def submitReview (st : Store) (actor : Principal) (bookingId : Option Nat)
    (rating : Option ℚ) (comment : Option String) (newId : Nat) :
    Store × Except Err Review :=
  match bookingId, rating with
  | none, _ => (st, .error .validationError)      -- "Booking ID and rating are required"
  | some _, none => (st, .error .validationError) -- "Booking ID and rating are required"
  | some bid, some r =>
    if r = 0 then
      (st, .error .validationError)               -- "Booking ID and rating are required"
    else if r < 1 ∨ 5 < r then
      (st, .error .validationError)               -- "Rating must be between 1 and 5"
    else
      match findBooking st bid with
      | none => (st, .error .notFound)            -- "Booking not found"
      | some b =>
        if b.userId ≠ actor.userId then
          (st, .error .forbidden)                 -- "Unauthorized"
        else if b.status ≠ .completed then
          (st, .error .invalidOperation)          -- "Can only review completed bookings"
        else if st.reviews.any (fun rv => decide (rv.bookingId = bid)) then
          (st, .error .conflict)                  -- "Review already exists for this booking"
        else
          let rv : Review :=
            { id := newId, userId := actor.userId, serviceId := b.serviceId,
              providerId := b.providerId, bookingId := bid, rating := r,
              comment := comment }
          let st1 : Store := { st with reviews := st.reviews ++ [rv] }
          (updateServiceRating st1 b.serviceId, .ok rv)

/-- Embeds `DELETE /api/admin/bookings` (src/src/app/api/admin/bookings/
route.ts, lines 201-250), the only handler that hard-deletes a booking.
`principal` is `none` when `getUserFromRequest` fails; `bookingId` is the
`id` query parameter. -/
def adminDeleteBooking (st : Store) (principal : Option Principal)
    (bookingId : Option Nat) : Store × Except Err Unit :=
  match principal with
  | none => (st, .error .forbidden)               -- "Unauthorized" (401)
  | some u =>
    if u.role ≠ .admin then
      (st, .error .forbidden)                     -- "Unauthorized" (401)
    else
      match bookingId with
      | none => (st, .error .validationError)     -- "Booking ID is required"
      | some bid =>
        match findBooking st bid with
        | none => (st, .error .notFound)          -- "Booking not found"
        | some _ =>
          if st.reviews.any (fun rv => decide (rv.bookingId = bid)) then
            (st, .error .invalidOperation)  -- "Cannot delete booking with existing review"
          else
            ({ st with bookings := st.bookings.filter fun b => decide (¬ b.id = bid) },
             .ok ())

deriving instance DecidableEq for Except

/-- Replace every service's availability window, leaving all other data
untouched; used to state that booking creation never consults the
window. -/
def mapAvailability (f : Availability → Availability) (st : Store) : Store :=
  { st with services := st.services.map fun s => { s with availability := f s.availability } }

/-! ## Concrete fixtures used by the witnesses -/

/-- A window: Monday-Wednesday, 9:00-17:00. -/
def wAvail : Availability := ⟨[1, 2, 3], 9, 17⟩

/-- Service 1, owned by provider 2, price 50, active. -/
def wService : Service := ⟨1, 2, 50, true, wAvail, 0, 0⟩

/-- A pending booking of service 1 by customer 1 at timestamp 100. -/
def wBookingPending : Booking := ⟨1, 1, 2, 1, 100, .pending, none, 50, .pending, 0, 0⟩

/-- The same booking, completed. -/
def wBookingCompleted : Booking := ⟨1, 1, 2, 1, 100, .completed, none, 50, .pending, 0, 0⟩

/-- A rating-5 review by customer 1 of booking 1. -/
def wReview : Review := ⟨1, 1, 1, 2, 1, 5, none⟩

/-- Store with service 1 only. -/
def wStoreEmpty : Store := ⟨[wService], [], []⟩

/-- Store with service 1 and the pending booking. -/
def wStorePending : Store := ⟨[wService], [wBookingPending], []⟩

/-- Store with service 1 and the completed booking. -/
def wStoreCompleted : Store := ⟨[wService], [wBookingCompleted], []⟩

/-- Store with service 1, the completed booking, and its review. -/
def wStoreReviewed : Store := ⟨[wService], [wBookingCompleted], [wReview]⟩

/-- A pending booking of service 1 (provider 2) by customer 5 — customer 5
also acts as a provider of other services. -/
def wBookingByProvider : Booking := ⟨2, 5, 2, 1, 200, .pending, none, 50, .pending, 0, 0⟩

/-- Store with service 1 and the booking made by provider-role user 5. -/
def wStoreByProvider : Store := ⟨[wService], [wBookingByProvider], []⟩

/-- `wStoreCompleted` after customer 1 reviews booking 1 with rating 4. -/
def wStoreAfterReview : Store :=
  ⟨[{ wService with rating := 4, reviewCount := 1 }], [wBookingCompleted],
   [⟨9, 1, 1, 2, 1, 4, none⟩]⟩

/-! ## Helper lemmas -/

/-- `round1` is exactly one-decimal rounding with Mathlib's `round`
(`Math.round` rounds halves up, as does `round`). -/
theorem round1_eq_round (q : ℚ) : round1 q = ((round (q * 10) : ℤ) : ℚ) / 10 := by
  have hfl : ∀ x : ℚ, x.floor = ⌊x⌋ := by
    intro x
    rw [Rat.floor_def', Rat.floor_def]
  have hm : (mkRat 1 2 : ℚ) = 1 / 2 := by
    rw [Rat.mkRat_eq_div]
    norm_num
  unfold round1
  rw [Rat.mkRat_eq_div, hm, hfl, round_eq]
  norm_num

/-- The active-slot statuses are exactly `pending`, `confirmed`,
`in_progress`. -/
theorem isActiveSlot_iff (s : BookingStatus) :
    s.isActiveSlot = true ↔ s = .pending ∨ s = .confirmed ∨ s = .inProgress := by
  cases s <;> simp [BookingStatus.isActiveSlot]

/-- The conflict query finds a row exactly when a booking with the same
`serviceId`, the same `date`, and an active-slot status exists. -/
theorem conflictExists_iff (st : Store) (sid : Nat) (d : Int) :
    conflictExists st sid d = true ↔
      ∃ b ∈ st.bookings, b.serviceId = sid ∧ b.date = d ∧
        (b.status = .pending ∨ b.status = .confirmed ∨ b.status = .inProgress) := by
  simp [conflictExists, List.any_eq_true, isActiveSlot_iff, and_assoc]

/-! ## C1 -/

/-- C1: `CreateBooking(customerId, serviceId, date, notes)` fails with
`NotFound` when the service does not exist or its `isActive` flag is
false; otherwise it fails with `InvalidOperation` when
`service.providerId = customerId`; otherwise it fails with `Conflict`
when some existing booking has the same `serviceId`, a timestamp exactly
equal to `date`, and a status in `{pending, confirmed, in_progress}`;
otherwise it succeeds and appends exactly one new booking with
`status = pending`, `totalPrice = service.price`,
`paymentStatus = pending`, `userId = customerId`, and
`providerId = service.providerId`. -/
theorem createBooking_cases (st : Store) (uid sid : Nat) (d : Int)
    (notes : Option String) (nid : Nat) (now : Int) :
    (findService st sid = none →
      createBooking st uid (some sid) (some d) notes nid now = (st, .error .notFound)) ∧
    (∀ s, findService st sid = some s → s.isActive = false →
      createBooking st uid (some sid) (some d) notes nid now = (st, .error .notFound)) ∧
    (∀ s, findService st sid = some s → s.isActive = true → s.providerId = uid →
      createBooking st uid (some sid) (some d) notes nid now = (st, .error .invalidOperation)) ∧
    (∀ s, findService st sid = some s → s.isActive = true → s.providerId ≠ uid →
      (∃ b ∈ st.bookings, b.serviceId = sid ∧ b.date = d ∧
        (b.status = .pending ∨ b.status = .confirmed ∨ b.status = .inProgress)) →
      createBooking st uid (some sid) (some d) notes nid now = (st, .error .conflict)) ∧
    (∀ s, findService st sid = some s → s.isActive = true → s.providerId ≠ uid →
      ¬ (∃ b ∈ st.bookings, b.serviceId = sid ∧ b.date = d ∧
        (b.status = .pending ∨ b.status = .confirmed ∨ b.status = .inProgress)) →
      createBooking st uid (some sid) (some d) notes nid now =
        ({ st with bookings := st.bookings ++
            [{ id := nid, userId := uid, providerId := s.providerId, serviceId := sid,
               date := d, status := .pending, notes := notes, totalPrice := s.price,
               paymentStatus := .pending, createdAt := now, updatedAt := now }] },
         .ok { id := nid, userId := uid, providerId := s.providerId, serviceId := sid,
               date := d, status := .pending, notes := notes, totalPrice := s.price,
               paymentStatus := .pending, createdAt := now, updatedAt := now })) := by
  refine ⟨?_, ?_, ?_, ?_, ?_⟩
  · intro h
    simp [createBooking, h]
  · intro s hs hact
    simp [createBooking, hs, hact]
  · intro s hs hact hown
    simp [createBooking, hs, hact, hown]
  · intro s hs hact hown hconf
    have hc : conflictExists st sid d = true := (conflictExists_iff st sid d).mpr hconf
    simp [createBooking, hs, hact, hown, hc]
  · intro s hs hact hown hconf
    have hc : conflictExists st sid d = false := by
      rw [← Bool.not_eq_true, conflictExists_iff]
      exact hconf
    simp [createBooking, hs, hact, hown, hc, defaultBookingStatus, defaultPaymentStatus]

/-- C1 witness: in a store holding only active service 1 (provider 2),
customer 3 books slot 100 and exactly the expected pending booking is
appended. -/
theorem createBooking_cases_witness :
    createBooking wStoreEmpty 3 (some 1) (some 100) none 7 0 =
      ({ wStoreEmpty with bookings := wStoreEmpty.bookings ++
          [{ id := 7, userId := 3, providerId := 2, serviceId := 1, date := 100,
             status := .pending, notes := none, totalPrice := 50,
             paymentStatus := .pending, createdAt := 0, updatedAt := 0 }] },
       .ok { id := 7, userId := 3, providerId := 2, serviceId := 1, date := 100,
             status := .pending, notes := none, totalPrice := 50,
             paymentStatus := .pending, createdAt := 0, updatedAt := 0 }) :=
  (createBooking_cases wStoreEmpty 3 1 100 none 7 0).2.2.2.2 wService (by decide)
    (by decide) (by decide) (by decide)

/-! ## C2 -/

/-- C2: under the preconditions that precede it (service found, active,
not the caller's own), the conflict rejection of `CreateBooking` happens
exactly when some existing booking has the same `serviceId`, a timestamp
exactly equal to `date`, and a status in `{pending, confirmed,
in_progress}`; the service's declared availability window is never
consulted (the whole call commutes with any rewrite of every
availability window), so a call for any date — in particular one outside
the provider's declared days and hours — with no exact-slot collision
still succeeds. -/
theorem conflict_check_exact_slot_only (st : Store) (uid sid : Nat) (d : Int)
    (notes : Option String) (nid : Nat) (now : Int) :
    (∀ s, findService st sid = some s → s.isActive = true → s.providerId ≠ uid →
      ((createBooking st uid (some sid) (some d) notes nid now).2 = .error .conflict ↔
        ∃ b ∈ st.bookings, b.serviceId = sid ∧ b.date = d ∧
          (b.status = .pending ∨ b.status = .confirmed ∨ b.status = .inProgress))) ∧
    (∀ f : Availability → Availability,
      createBooking (mapAvailability f st) uid (some sid) (some d) notes nid now =
        (mapAvailability f (createBooking st uid (some sid) (some d) notes nid now).1,
         (createBooking st uid (some sid) (some d) notes nid now).2)) ∧
    (∀ s, findService st sid = some s → s.isActive = true → s.providerId ≠ uid →
      ¬ (∃ b ∈ st.bookings, b.serviceId = sid ∧ b.date = d ∧
          (b.status = .pending ∨ b.status = .confirmed ∨ b.status = .inProgress)) →
      ∃ st' b, createBooking st uid (some sid) (some d) notes nid now = (st', .ok b)) := by
  refine ⟨?_, ?_, ?_⟩
  · intro s hf hact hown
    by_cases hc : conflictExists st sid d
    · simp [createBooking, hf, hact, hown, hc, (conflictExists_iff st sid d).mp hc]
    · have hnex : ¬ ∃ b ∈ st.bookings, b.serviceId = sid ∧ b.date = d ∧
          (b.status = .pending ∨ b.status = .confirmed ∨ b.status = .inProgress) :=
        fun hex => hc ((conflictExists_iff st sid d).mpr hex)
      simp [createBooking, hf, hact, hown, hc, hnex]
  · intro f
    have hfind : findService (mapAvailability f st) sid =
        (findService st sid).map fun s => { s with availability := f s.availability } := by
      simp only [findService, mapAvailability, List.find?_map]
      rfl
    have hconf : conflictExists (mapAvailability f st) sid d = conflictExists st sid d := rfl
    rcases hf : findService st sid with _ | s
    · simp only [createBooking, hfind, hf, Option.map_none']
    · by_cases hact : s.isActive = false
      · simp only [createBooking, hfind, hf, Option.map_some']
        simp [hact]
      · by_cases hown : s.providerId = uid
        · simp only [createBooking, hfind, hf, Option.map_some']
          simp [hact, hown]
        · by_cases hc : conflictExists st sid d
          · simp only [createBooking, hfind, hf, Option.map_some']
            simp [hact, hown, hconf, hc]
          · simp only [createBooking, hfind, hf, Option.map_some']
            simp only [hconf, hc]
            simp [hact, hown, mapAvailability]
  · intro s hf hact hown hnex
    have hc : conflictExists st sid d = false := by
      rw [← Bool.not_eq_true, conflictExists_iff]
      exact hnex
    have heq : createBooking st uid (some sid) (some d) notes nid now =
        ({ st with bookings := st.bookings ++
            [{ id := nid, userId := uid, providerId := s.providerId, serviceId := sid,
               date := d, status := .pending, notes := notes, totalPrice := s.price,
               paymentStatus := .pending, createdAt := now, updatedAt := now }] },
         .ok { id := nid, userId := uid, providerId := s.providerId, serviceId := sid,
               date := d, status := .pending, notes := notes, totalPrice := s.price,
               paymentStatus := .pending, createdAt := now, updatedAt := now }) := by
      simp [createBooking, hf, hact, hown, hc, defaultBookingStatus, defaultPaymentStatus]
    exact ⟨_, _, heq⟩

/-- C2 witness: the pending booking at slot (1, 100) makes the same
request conflict. -/
theorem conflict_check_exact_slot_only_witness :
    (createBooking wStorePending 3 (some 1) (some 100) none 7 0).2 = .error .conflict :=
  ((conflict_check_exact_slot_only wStorePending 3 1 100 none 7 0).1 wService (by decide)
    (by decide) (by decide)).mpr (by decide)

/-- For an authorized actor the update handler rejects a present target
status outside the actor's permitted set, touching nothing. -/
theorem transitionBooking_not_allowed (st : Store) (actor : Principal) (bid : Nat)
    (b : Booking) (t : BookingStatus) (notes : Option (Option String)) (now : Int)
    (hb : findBooking st bid = some b)
    (hu : actor.role = .user → b.userId = actor.userId)
    (hp : actor.role = .provider → b.providerId = actor.userId)
    (ht : t ∉ allowedStatuses actor.role) :
    transitionBooking st actor bid (some t) notes now = (st, .error .invalidTransition) := by
  have h1 : ¬ (actor.role = .user ∧ b.userId ≠ actor.userId) :=
    fun h => h.2 (hu h.1)
  have h2 : ¬ (actor.role = .provider ∧ b.providerId ≠ actor.userId) :=
    fun h => h.2 (hp h.1)
  simp [transitionBooking, hb, h1, h2, ht]

/-- For an authorized actor the update handler accepts a present target
status inside the actor's permitted set and writes it, whatever the
booking's current status. -/
theorem transitionBooking_allowed (st : Store) (actor : Principal) (bid : Nat)
    (b : Booking) (t : BookingStatus) (notes : Option (Option String)) (now : Int)
    (hb : findBooking st bid = some b)
    (hu : actor.role = .user → b.userId = actor.userId)
    (hp : actor.role = .provider → b.providerId = actor.userId)
    (ht : t ∈ allowedStatuses actor.role) :
    transitionBooking st actor bid (some t) notes now =
      ({ st with bookings := st.bookings.map fun x =>
          if x.id = bid then
            { b with status := t, notes := notes.getD b.notes, updatedAt := now }
          else x },
       .ok { b with status := t, notes := notes.getD b.notes, updatedAt := now }) := by
  have h1 : ¬ (actor.role = .user ∧ b.userId ≠ actor.userId) :=
    fun h => h.2 (hu h.1)
  have h2 : ¬ (actor.role = .provider ∧ b.providerId ≠ actor.userId) :=
    fun h => h.2 (hp h.1)
  simp [transitionBooking, hb, h1, h2, ht]

/-! ## C3 -/

/-- C3: for a `Transition` on an existing booking by an authorized actor
(customer of the booking when role is `user`, provider of the booking
when role is `provider`, or any admin), the call fails with
`InvalidTransition` exactly when the target status is outside the
actor's role's permitted set — customer `{cancelled}`, provider
`{confirmed, in_progress, completed, cancelled}`, admin everything —
and this is independent of the booking's current status (`b` ranges
over bookings of every status, and a permitted target always succeeds,
even one that skips lifecycle states). -/
theorem transition_target_validity (st : Store) (actor : Principal) (bid : Nat)
    (b : Booking) (t : BookingStatus) (notes : Option (Option String)) (now : Int)
    (hb : findBooking st bid = some b)
    (hu : actor.role = .user → b.userId = actor.userId)
    (hp : actor.role = .provider → b.providerId = actor.userId) :
    ((transitionBooking st actor bid (some t) notes now).2 = .error .invalidTransition ↔
      t ∉ allowedStatuses actor.role) ∧
    (t ∈ allowedStatuses actor.role →
      ∃ st', transitionBooking st actor bid (some t) notes now =
        (st', .ok { b with status := t, notes := notes.getD b.notes, updatedAt := now })) := by
  constructor
  · constructor
    · intro herr ht
      rw [transitionBooking_allowed st actor bid b t notes now hb hu hp ht] at herr
      simp at herr
    · intro ht
      rw [transitionBooking_not_allowed st actor bid b t notes now hb hu hp ht]
  · intro ht
    exact ⟨_, transitionBooking_allowed st actor bid b t notes now hb hu hp ht⟩

/-- C3 witness: customer 1 requests `confirmed` on their own pending
booking — outside the customer set `{cancelled}` — and gets
`InvalidTransition`. -/
theorem transition_target_validity_witness :
    (transitionBooking wStorePending ⟨1, Role.user⟩ 1 (some .confirmed) none 5).2 =
      .error .invalidTransition :=
  (transition_target_validity wStorePending ⟨1, Role.user⟩ 1 wBookingPending .confirmed
    none 5 (by decide) (fun _ => rfl) (fun h => absurd h (by decide))).1.mpr (by decide)

/-! ## C4 -/

/-- C4 counterexample: booking 1 is `completed` (terminal), yet a
`Transition` by its customer to `cancelled` succeeds and changes the
stored status — the claim that no `Transition` succeeds on a terminal
booking, and that cancelling a completed booking always fails with
`InvalidOperation`, is false of the update handler. -/
theorem terminal_immutability_counterexample :
    (transitionBooking wStoreCompleted ⟨1, Role.user⟩ 1 (some .cancelled) none 5).2 =
      .ok ⟨1, 1, 2, 1, 100, .cancelled, none, 50, .pending, 0, 5⟩ ∧
    ((transitionBooking wStoreCompleted ⟨1, Role.user⟩ 1 (some .cancelled) none 5).1).bookings =
      [⟨1, 1, 2, 1, 100, .cancelled, none, 50, .pending, 0, 5⟩] := by
  decide

/-- C4 amended: only the cancellation endpoint (`DELETE
/api/bookings/[id]`) enforces terminality — on a booking whose status is
`completed` or `cancelled` it always fails with `InvalidOperation` and
leaves the store unchanged; the `Transition` (`PUT`) handler never
consults the current status, so an authorized actor's `Transition` to a
permitted target succeeds and overwrites the status even of a terminal
booking. -/
theorem terminal_immutability_amended :
    (∀ st actor bid b, findBooking st bid = some b →
      (b.status = .completed ∨ b.status = .cancelled) →
      cancelBooking st actor bid = (st, .error .invalidOperation)) ∧
    (∀ st actor bid b t notes now, findBooking st bid = some b →
      (b.status = .completed ∨ b.status = .cancelled) →
      (actor.role = .user → b.userId = actor.userId) →
      (actor.role = .provider → b.providerId = actor.userId) →
      t ∈ allowedStatuses actor.role →
      ∃ st', transitionBooking st actor bid (some t) notes now =
        (st', .ok { b with status := t, notes := notes.getD b.notes, updatedAt := now })) := by
  constructor
  · intro st actor bid b hb hterm
    simp [cancelBooking, hb, hterm]
  · intro st actor bid b t notes now hb hterm hu hp ht
    exact ⟨_, transitionBooking_allowed st actor bid b t notes now hb hu hp ht⟩

/-- C4 amended witness: cancelling the completed booking 1 through the
cancellation endpoint fails with `InvalidOperation`. -/
theorem terminal_immutability_amended_witness :
    cancelBooking wStoreCompleted ⟨1, Role.user⟩ 1 =
      (wStoreCompleted, .error .invalidOperation) :=
  terminal_immutability_amended.1 wStoreCompleted ⟨1, Role.user⟩ 1 wBookingCompleted
    (by decide) (Or.inl rfl)

/-! ## C10 -/

/-- C10: `Transition` authorization branches on the role string, not on
the principal's relationship to the booking: a principal whose role is
`provider` but who is the booking's customer (its `userId`, the booking
being of a different provider's service) is rejected with `Forbidden`
for every target status, including `cancelled`. -/
theorem provider_role_customer_forbidden (st : Store) (actor : Principal) (bid : Nat)
    (b : Booking) (t : Option BookingStatus) (notes : Option (Option String)) (now : Int)
    (hb : findBooking st bid = some b) (hrole : actor.role = .provider)
    (hcust : b.userId = actor.userId) (hprov : b.providerId ≠ actor.userId) :
    transitionBooking st actor bid t notes now = (st, .error .forbidden) := by
  have h1 : ¬ (actor.role = .user ∧ b.userId ≠ actor.userId) := by
    rw [hrole]
    rintro ⟨h, -⟩
    cases h
  simp [transitionBooking, hb, h1, hrole, hprov]

/-- C10 witness: user 5, authenticated with role `provider`, is the
customer of booking 2 (provider 2's service); their request to cancel is
rejected with `Forbidden` even though `cancelled` is in the customer
permission row. -/
theorem provider_role_customer_forbidden_witness :
    transitionBooking wStoreByProvider ⟨5, Role.provider⟩ 2 (some .cancelled) none 7 =
      (wStoreByProvider, .error .forbidden) :=
  provider_role_customer_forbidden wStoreByProvider ⟨5, Role.provider⟩ 2 wBookingByProvider
    (some .cancelled) none 7 (by decide) rfl rfl (by decide)

/-! ## C8 -/

/-- C8: every core operation that returns an error leaves the store
completely unchanged — in particular a rejected `Transition` (whether
for authorization or for an invalid target) commits no partial
mutation, so the booking's `status`, `notes` and `updatedAt` are
exactly as before the call. -/
theorem error_leaves_store_unchanged :
    (∀ st uid sid d notes nid now e,
      (createBooking st uid sid d notes nid now).2 = .error e →
      (createBooking st uid sid d notes nid now).1 = st) ∧
    (∀ st actor bid status notes now e,
      (transitionBooking st actor bid status notes now).2 = .error e →
      (transitionBooking st actor bid status notes now).1 = st) ∧
    (∀ st actor bid e,
      (cancelBooking st actor bid).2 = .error e →
      (cancelBooking st actor bid).1 = st) ∧
    (∀ st u bid e,
      (adminDeleteBooking st u bid).2 = .error e →
      (adminDeleteBooking st u bid).1 = st) ∧
    (∀ st actor bid r c nid e,
      (submitReview st actor bid r c nid).2 = .error e →
      (submitReview st actor bid r c nid).1 = st) := by
  refine ⟨?_, ?_, ?_, ?_, ?_⟩
  · intro st uid sid d notes nid now e h
    rcases sid with _ | sid
    · rfl
    rcases d with _ | d
    · rfl
    rcases hf : findService st sid with _ | s
    · simp [createBooking, hf]
    by_cases h1 : s.isActive = false
    · simp [createBooking, hf, h1]
    by_cases h2 : s.providerId = uid
    · simp [createBooking, hf, h1, h2]
    by_cases h3 : conflictExists st sid d = true
    · simp [createBooking, hf, h1, h2, h3]
    · simp [createBooking, hf, h1, h2, h3] at h
  · intro st actor bid status notes now e h
    rcases hb : findBooking st bid with _ | b
    · simp [transitionBooking, hb]
    by_cases h1 : actor.role = .user ∧ b.userId ≠ actor.userId
    · simp [transitionBooking, hb, h1]
    by_cases h2 : actor.role = .provider ∧ b.providerId ≠ actor.userId
    · simp [transitionBooking, hb, h1, h2]
    by_cases h3 : status.any (fun t => !decide (t ∈ allowedStatuses actor.role)) = true
    · simp [transitionBooking, hb, h1, h2, h3]
    · simp [transitionBooking, hb, h1, h2, h3] at h
  · intro st actor bid e h
    rcases hb : findBooking st bid with _ | b
    · simp [cancelBooking, hb]
    by_cases h1 : b.status = .completed ∨ b.status = .cancelled
    · simp [cancelBooking, hb, h1]
    by_cases h2 : b.userId ≠ actor.userId ∧ b.providerId ≠ actor.userId ∧ actor.role ≠ .admin
    · simp [cancelBooking, hb, h1, h2]
    · simp [cancelBooking, hb, h1, h2] at h
  · intro st u bid e h
    rcases u with _ | u
    · rfl
    by_cases h1 : u.role ≠ .admin
    · simp [adminDeleteBooking, h1]
    rcases bid with _ | bid
    · simp [adminDeleteBooking, h1]
    rcases hb : findBooking st bid with _ | b
    · simp [adminDeleteBooking, h1, hb]
    by_cases h2 : st.reviews.any (fun rv => decide (rv.bookingId = bid)) = true
    · simp [adminDeleteBooking, h1, hb, h2]
    · simp [adminDeleteBooking, h1, hb, h2] at h
  · intro st actor bid r c nid e h
    rcases bid with _ | bid
    · rfl
    rcases r with _ | r
    · rfl
    by_cases h0 : r = 0
    · simp [submitReview, h0]
    by_cases h1 : r < 1 ∨ 5 < r
    · simp [submitReview, h0, h1]
    rcases hb : findBooking st bid with _ | b
    · simp [submitReview, h0, h1, hb]
    by_cases h2 : b.userId ≠ actor.userId
    · simp [submitReview, h0, h1, hb, h2]
    by_cases h3 : b.status ≠ .completed
    · simp [submitReview, h0, h1, hb, h2, h3]
    by_cases h4 : st.reviews.any (fun rv => decide (rv.bookingId = bid)) = true
    · simp [submitReview, h0, h1, hb, h2, h3, h4]
    · simp [submitReview, h0, h1, hb, h2, h3, h4] at h

/-- C8 witness: customer 1's rejected request (`confirmed` is outside
the customer set) leaves the store exactly as it was. -/
theorem error_leaves_store_unchanged_witness :
    (transitionBooking wStorePending ⟨1, Role.user⟩ 1 (some .confirmed) none 5).1 =
      wStorePending :=
  error_leaves_store_unchanged.2.1 wStorePending ⟨1, Role.user⟩ 1 (some .confirmed) none 5
    .invalidTransition (by decide)

/-! ## C9 -/

/-- C9: a booking is hard-deleted only through the admin endpoint — so
only by an admin caller, which is in the set {customer, provider,
admin} — and only when no review is linked to it; when a linked review
exists the delete fails with `InvalidOperation` and the store (booking
and review included) is unchanged.  The customer-facing `DELETE`
endpoint never removes a row (it only cancels), so no other deletion
path exists. -/
theorem hardDelete_requires_admin_and_no_review :
    (∀ st u bid st', adminDeleteBooking st u bid = (st', .ok ()) →
      ∃ p b, u = some p ∧ p.role = .admin ∧ bid = some b ∧
        (¬ ∃ rv ∈ st.reviews, rv.bookingId = b) ∧
        st' = { st with bookings := st.bookings.filter fun x => decide (¬ x.id = b) }) ∧
    (∀ st p bid b, p.role = .admin → findBooking st bid = some b →
      (∃ rv ∈ st.reviews, rv.bookingId = bid) →
      adminDeleteBooking st (some p) (some bid) = (st, .error .invalidOperation)) ∧
    (∀ st actor bid,
      ((cancelBooking st actor bid).1).bookings.length = st.bookings.length ∧
      ((cancelBooking st actor bid).1).reviews = st.reviews) := by
  refine ⟨?_, ?_, ?_⟩
  · intro st u bid st' h
    rcases u with _ | p
    · simp [adminDeleteBooking] at h
    by_cases h1 : p.role ≠ .admin
    · simp [adminDeleteBooking, h1] at h
    rcases bid with _ | b
    · simp [adminDeleteBooking, h1] at h
    rcases hb : findBooking st b with _ | bk
    · simp [adminDeleteBooking, h1, hb] at h
    by_cases h2 : st.reviews.any (fun rv => decide (rv.bookingId = b)) = true
    · simp [adminDeleteBooking, h1, hb, h2] at h
    · refine ⟨p, b, rfl, not_not.mp h1, rfl, ?_, ?_⟩
      · rintro ⟨rv, hmem, hbid⟩
        exact h2 (List.any_eq_true.mpr ⟨rv, hmem, by simp [hbid]⟩)
      · simp [adminDeleteBooking, h1, hb, h2] at h
        rw [← h]
        simp
  · intro st p bid b hrole hb hex
    have h1 : ¬ p.role ≠ Role.admin := fun hc => hc hrole
    have h2 : st.reviews.any (fun rv => decide (rv.bookingId = bid)) = true := by
      rcases hex with ⟨rv, hmem, hbid⟩
      exact List.any_eq_true.mpr ⟨rv, hmem, by simp [hbid]⟩
    simp [adminDeleteBooking, h1, hb, h2]
  · intro st actor bid
    rcases hb : findBooking st bid with _ | b
    · simp [cancelBooking, hb]
    by_cases h1 : b.status = .completed ∨ b.status = .cancelled
    · simp [cancelBooking, hb, h1]
    by_cases h2 : b.userId ≠ actor.userId ∧ b.providerId ≠ actor.userId ∧ actor.role ≠ .admin
    · simp [cancelBooking, hb, h1, h2]
    · simp [cancelBooking, hb, h1, h2]

/-- C9 witness: the admin delete of the reviewed booking 1 is rejected
with `InvalidOperation` and the store is unchanged. -/
theorem hardDelete_requires_admin_and_no_review_witness :
    adminDeleteBooking wStoreReviewed (some ⟨9, Role.admin⟩) (some 1) =
      (wStoreReviewed, .error .invalidOperation) :=
  hardDelete_requires_admin_and_no_review.2.1 wStoreReviewed ⟨9, Role.admin⟩ 1
    wBookingCompleted rfl (by decide) ⟨wReview, by decide, by decide⟩

/-- Recomputing a service's rating touches no review. -/
theorem updateServiceRating_reviews (st : Store) (sid : Nat) :
    (updateServiceRating st sid).reviews = st.reviews := by
  unfold updateServiceRating
  dsimp only
  split <;> rfl

/-- Looking up `sid` after the recompute returns the recomputed service
(when the service has at least one review). -/
theorem findService_updateServiceRating (st : Store) (sid : Nat)
    (h : 0 < (serviceRatings st sid).length) :
    findService (updateServiceRating st sid) sid =
      (findService st sid).map fun s =>
        if s.id = sid then
          { s with
              rating := round1 ((serviceRatings st sid).sum /
                                ((serviceRatings st sid).length : ℚ)),
              reviewCount := (serviceRatings st sid).length }
        else s := by
  unfold updateServiceRating findService
  dsimp only
  rw [if_pos h]
  have hcomp : ((fun s => decide (s.id = sid)) ∘ fun s =>
      if s.id = sid then
        { s with
            rating := round1 ((serviceRatings st sid).sum /
                              ((serviceRatings st sid).length : ℚ)),
            reviewCount := (serviceRatings st sid).length }
      else s) = fun s : Service => decide (s.id = sid) := by
    funext s
    by_cases hc : s.id = sid <;> simp [hc]
  simp only [List.find?_map, hcomp]

/-! ## C5 -/

/-- C5: after every successful `SubmitReview` for a booking of service
`s`, the stored service `s` has `rating` equal to the arithmetic mean of
the ratings of all reviews currently linked to `s`, rounded to one
decimal place, and `reviewCount` equal to the number of those
reviews. -/
theorem submitReview_rating_consistency (st : Store) (actor : Principal)
    (bid : Nat) (r : ℚ) (c : Option String) (nid : Nat) (st' : Store) (rv : Review)
    (h : submitReview st actor (some bid) (some r) c nid = (st', .ok rv)) :
    ∀ svc, findService st' rv.serviceId = some svc →
      svc.rating = round1 ((serviceRatings st' rv.serviceId).sum /
                           ((serviceRatings st' rv.serviceId).length : ℚ)) ∧
      svc.reviewCount = (serviceRatings st' rv.serviceId).length := by
  by_cases h0 : r = 0
  · simp [submitReview, h0] at h
  by_cases h1 : r < 1 ∨ 5 < r
  · simp [submitReview, h0, h1] at h
  rcases hb : findBooking st bid with _ | b
  · simp [submitReview, h0, h1, hb] at h
  by_cases h2 : b.userId ≠ actor.userId
  · simp [submitReview, h0, h1, hb, h2] at h
  by_cases h3 : b.status ≠ .completed
  · simp [submitReview, h0, h1, hb, h2, h3] at h
  by_cases h4 : st.reviews.any (fun x => decide (x.bookingId = bid)) = true
  · simp [submitReview, h0, h1, hb, h2, h3, h4] at h
  simp [submitReview, h0, h1, hb, h2, h3, h4] at h
  obtain ⟨hst', hrv⟩ := h
  subst hst'
  subst hrv
  have hratings1 : serviceRatings
      { st with reviews := st.reviews ++
          [{ id := nid, userId := actor.userId, serviceId := b.serviceId,
             providerId := b.providerId, bookingId := bid, rating := r,
             comment := c }] } b.serviceId =
      serviceRatings st b.serviceId ++ [r] := by
    simp [serviceRatings, List.filter_append]
  have hlen : 0 < (serviceRatings
      { st with reviews := st.reviews ++
          [{ id := nid, userId := actor.userId, serviceId := b.serviceId,
             providerId := b.providerId, bookingId := bid, rating := r,
             comment := c }] } b.serviceId).length := by
    rw [hratings1]
    simp
  intro svc hsvc
  have hsr : serviceRatings (updateServiceRating
      { st with reviews := st.reviews ++
          [{ id := nid, userId := actor.userId, serviceId := b.serviceId,
             providerId := b.providerId, bookingId := bid, rating := r,
             comment := c }] } b.serviceId)
      ({ id := nid, userId := actor.userId, serviceId := b.serviceId,
         providerId := b.providerId, bookingId := bid, rating := r,
         comment := c } : Review).serviceId =
      serviceRatings
      { st with reviews := st.reviews ++
          [{ id := nid, userId := actor.userId, serviceId := b.serviceId,
             providerId := b.providerId, bookingId := bid, rating := r,
             comment := c }] } b.serviceId := by
    unfold serviceRatings
    rw [updateServiceRating_reviews]
  rw [findService_updateServiceRating _ b.serviceId hlen] at hsvc
  rcases Option.map_eq_some'.mp hsvc with ⟨s0, hs0, hupd⟩
  have hid : s0.id = b.serviceId := by
    have := List.find?_some hs0
    simpa using this
  rw [if_pos hid] at hupd
  rw [hsr, ← hupd]
  exact ⟨rfl, rfl⟩

/-- C5 witness: customer 1 reviews the completed booking 1 with rating 4;
the stored service then carries rating `round1 4 = 4` and review count 1. -/
theorem submitReview_rating_consistency_witness :
    ({ wService with rating := 4, reviewCount := 1 } : Service).rating =
      round1 ((serviceRatings wStoreAfterReview
                 (⟨9, 1, 1, 2, 1, 4, none⟩ : Review).serviceId).sum /
              ((serviceRatings wStoreAfterReview
                 (⟨9, 1, 1, 2, 1, 4, none⟩ : Review).serviceId).length : ℚ)) ∧
    ({ wService with rating := 4, reviewCount := 1 } : Service).reviewCount =
      (serviceRatings wStoreAfterReview
        (⟨9, 1, 1, 2, 1, 4, none⟩ : Review).serviceId).length :=
  submitReview_rating_consistency wStoreCompleted ⟨1, Role.user⟩ 1 4 none 9
    wStoreAfterReview ⟨9, 1, 1, 2, 1, 4, none⟩ (by decide)
    { wService with rating := 4, reviewCount := 1 } (by decide)

/-! ## C6 -/

/-- C6 counterexample: a review of booking 1 exists, yet a subsequent
`SubmitReview` for booking 1 by caller 3 — who is not the booking's
customer — fails with `Forbidden`, not with `Conflict`; so "every
subsequent SubmitReview call for the same bookingId fails with Conflict
... regardless of the caller" is false. -/
theorem single_review_counterexample :
    (submitReview wStoreReviewed ⟨3, Role.user⟩ (some 1) (some 5) none 9).2 =
      .error .forbidden ∧
    ¬ (submitReview wStoreReviewed ⟨3, Role.user⟩ (some 1) (some 5) none 9).2 =
      .error .conflict := by
  decide

/-- C6 amended: once a review referencing `bookingId` exists, every
subsequent `SubmitReview` for the same `bookingId` fails and creates no
review (the store is returned unchanged) — with `Conflict` when the
caller is the booking's customer, the rating passes validation, and the
booking is still `completed`; with the corresponding earlier error
(`ValidationError`, `NotFound`, `Forbidden`, `InvalidOperation`)
otherwise.  Hence at most one review ever references a given
`bookingId`. -/
theorem single_review_amended (st : Store) (actor : Principal) (bid : Nat)
    (r : Option ℚ) (c : Option String) (nid : Nat)
    (hex : ∃ rv ∈ st.reviews, rv.bookingId = bid) :
    (∃ e, submitReview st actor (some bid) r c nid = (st, .error e)) ∧
    (∀ q b, r = some q → ¬ q = 0 → ¬ (q < 1 ∨ 5 < q) →
      findBooking st bid = some b → b.userId = actor.userId → b.status = .completed →
      submitReview st actor (some bid) r c nid = (st, .error .conflict)) := by
  have hdup : st.reviews.any (fun x => decide (x.bookingId = bid)) = true := by
    rcases hex with ⟨rv, hmem, hbid⟩
    exact List.any_eq_true.mpr ⟨rv, hmem, by simp [hbid]⟩
  constructor
  · rcases r with _ | q
    · exact ⟨.validationError, rfl⟩
    by_cases h0 : q = 0
    · exact ⟨.validationError, by simp [submitReview, h0]⟩
    by_cases h1 : q < 1 ∨ 5 < q
    · exact ⟨.validationError, by simp [submitReview, h0, h1]⟩
    rcases hb : findBooking st bid with _ | b
    · exact ⟨.notFound, by simp [submitReview, h0, h1, hb]⟩
    by_cases h2 : b.userId ≠ actor.userId
    · exact ⟨.forbidden, by simp [submitReview, h0, h1, hb, h2]⟩
    by_cases h3 : b.status ≠ .completed
    · exact ⟨.invalidOperation, by simp [submitReview, h0, h1, hb, h2, h3]⟩
    · exact ⟨.conflict, by simp [submitReview, h0, h1, hb, h2, h3, hdup]⟩
  · intro q b hr h0 h1 hfb hub hst
    subst hr
    simp [submitReview, h0, h1, hfb, hub, hst, hdup]

/-- C6 amended witness: the booking's own customer re-reviews booking 1
with a valid rating and is rejected with `Conflict`, the store
unchanged. -/
theorem single_review_amended_witness :
    submitReview wStoreReviewed ⟨1, Role.user⟩ (some 1) (some 5) none 9 =
      (wStoreReviewed, .error .conflict) :=
  (single_review_amended wStoreReviewed ⟨1, Role.user⟩ 1 (some 5) none 9
    ⟨wReview, by decide, by decide⟩).2 5 wBookingCompleted rfl (by decide) (by decide)
    (by decide) (by decide) (by decide)

/-! ## C7 -/

/-- C7 counterexample: rating 9/2 = 4.5 is not an integer, yet
`SubmitReview` does not fail with `ValidationError` — the range check
`rating < 1 || rating > 5` passes and a review carrying rating 4.5 is
created. -/
theorem rating_validation_counterexample :
    (submitReview wStoreCompleted ⟨1, Role.user⟩ (some 1) (some (mkRat 9 2)) none 9).2 =
      .ok ⟨9, 1, 1, 2, 1, mkRat 9 2, none⟩ ∧
    ¬ (submitReview wStoreCompleted ⟨1, Role.user⟩ (some 1) (some (mkRat 9 2)) none 9).2 =
      .error .validationError := by
  decide

/-- C7 amended: with `bookingId` and a rating present, `SubmitReview`
fails with `ValidationError` exactly when the rating is `0` (the
falsiness check) or numerically below 1 or above 5; integrality is
never checked, so a non-integral rating inside `[1, 5]` passes
validation. -/
theorem rating_validation_amended (st : Store) (actor : Principal) (bid : Nat)
    (r : ℚ) (c : Option String) (nid : Nat) :
    (submitReview st actor (some bid) (some r) c nid).2 = .error .validationError ↔
      (r = 0 ∨ r < 1 ∨ 5 < r) := by
  by_cases h0 : r = 0
  · simp [submitReview, h0]
  by_cases h1 : r < 1 ∨ 5 < r
  · simp [submitReview, h0, h1]
  rcases hb : findBooking st bid with _ | b
  · simp [submitReview, h0, h1, hb]
  by_cases h2 : b.userId ≠ actor.userId
  · simp [submitReview, h0, h1, hb, h2]
  by_cases h3 : b.status ≠ .completed
  · simp [submitReview, h0, h1, hb, h2, h3]
  by_cases h4 : st.reviews.any (fun x => decide (x.bookingId = bid)) = true
  · simp [submitReview, h0, h1, hb, h2, h3, h4]
  · simp [submitReview, h0, h1, hb, h2, h3, h4]

/-- C7 amended witness: rating 7 is rejected with `ValidationError`. -/
theorem rating_validation_amended_witness :
    (submitReview wStoreCompleted ⟨1, Role.user⟩ (some 1) (some 7) none 9).2 =
      .error .validationError :=
  (rating_validation_amended wStoreCompleted ⟨1, Role.user⟩ 1 7 none 9).mpr
    (Or.inr (Or.inr (by decide)))
